import Mathlib

/-!
Shallow embedding of the trytond-ebay reconciliation and incremental-sync
engine (channel.py, product.py; the address matcher of party.py is modelled
from the spec, since party.py itself is not among the available sources).

Times (`datetime.utcnow()` values) are modelled as natural numbers counting
seconds; subtracting `relativedelta(days=30)` is subtracting `30 * 86400`.
The eBay trading API is modelled as explicit function parameters
(`fetchOrders` for `GetOrders`, `fetchItem` for `GetItem`), and the
`Sale.create_using_ebay_data` call of the missing sale.py is modelled as an
arbitrary fallible operation `createSale` passed as a parameter.  Persisted
writes are explicit state passing; following the spec's persistence model the
cursor write is its own atomic unit and is not rolled back by later errors.
-/

namespace EbaySync

/-- One marketplace order payload, identified by its external order id.
The remaining payload fields are consumed only by the (absent) sale.py, so
an order is represented by its identity. -/
structure OrderData where
  order_id : String
  deriving DecidableEq, Repr

/-- A created local sale record, tagged with the external order id it was
built from (sale.py is absent; only identity matters to these claims). -/
structure Sale where
  ebay_order_id : String
  deriving DecidableEq, Repr

/-- `sale.channel` as consulted by channel.py: the `source` selector and the
`last_ebay_order_import_time` cursor.  The credential fields
(`ebay_app_id`, `ebay_dev_id`, `ebay_cert_id`, `ebay_token`,
`is_ebay_sandbox`) only parameterise the API connection and are omitted. -/
structure Channel where
  source : String
  last_ebay_order_import_time : Nat
  deriving DecidableEq, Repr

/-- channel.py line 68: `default_last_ebay_order_import_time` returns
`datetime.utcnow() - relativedelta(days=30)`, i.e. thirty days of seconds
before the current UTC time. -/
def default_last_ebay_order_import_time (now : Nat) : Nat :=
  now - 30 * 86400

/-- The `OrderArray.Order` field of a `GetOrders` response: the eBay API
returns a single dict for one order and a list for several
(channel.py lines 185-191). -/
inductive OrderField where
  | single (o : OrderData)
  | many (os : List OrderData)
  deriving DecidableEq, Repr

/-- channel.py lines 188-191: normalize the single-vs-list response shape
into a uniform list of orders. -/
def normalizeOrders : OrderField → List OrderData
  | .single o => [o]
  | .many os => os

/-- The errors `import_ebay_orders` can surface: `raise_user_error`
with key `invalid_channel` (line 144) or `no_orders` carrying the window
start (lines 181-183), or an exception propagating out of
`Sale.create_using_ebay_data` (line 195, uncaught). -/
inductive ImportError where
  | invalid_channel
  | no_orders (since : Nat)
  | sale_error (msg : String)
  deriving DecidableEq, Repr

/-- Observable events of one import run, in program order: the persisted
cursor write (channel.py line 172), the `GetOrders` API call (line 174),
and each attempted per-order sale creation (line 195). -/
inductive Event where
  | cursorWrite (t : Nat)
  | fetch (timeFrom timeTo : Nat)
  | processOrder (o : OrderData)
  deriving DecidableEq, Repr

/-- Whether an event is the cursor write. -/
def Event.isCursorWrite : Event → Bool
  | .cursorWrite _ => true
  | _ => false

/-- channel.py lines 193-195: the per-order loop.  Python `for` with no
`try`: the first exception from `Sale.create_using_ebay_data` aborts the
loop and propagates.  Returns the outcome together with the trace of
attempted orders (the failing order's creation was attempted, so it is
traced; orders after it are not reached). -/
def processOrders (createSale : OrderData → Except String Sale) :
    List OrderData → Except String (List Sale) × List Event
  | [] => (.ok [], [])
  | o :: os =>
    match createSale o with
    | .error e => (.error e, [.processOrder o])
    | .ok s =>
      match processOrders createSale os with
      | (.ok rest, tr) => (.ok (s :: rest), .processOrder o :: tr)
      | (.error e, tr) => (.error e, .processOrder o :: tr)

/-- The full outcome of one run of `import_ebay_orders`: the channel state
after the run (the cursor write persists even when a later error is
raised), the returned sales or the raised error, and the event trace. -/
structure ImportResult where
  channel : Channel
  result : Except ImportError (List Sale)
  trace : List Event
  deriving Repr

/-- channel.py lines 156-197, `SaleChannel.import_ebay_orders`:
validate the channel source, capture `now` and the previous cursor, persist
the cursor to `now`, call `GetOrders` over `[last_import_time, now)`, raise
`no_orders` when the response has no `OrderArray` (a missing or falsy field
is modelled by `none`), normalize the single-vs-list order shape, then
create one sale per order.  `fetchOrders` stands for the eBay API and
`createSale` for `Sale.create_using_ebay_data` of the absent sale.py. -/
def import_ebay_orders (now : Nat) (fetchOrders : Nat → Nat → Option OrderField)
    (createSale : OrderData → Except String Sale) (ch : Channel) : ImportResult :=
  if ch.source = "ebay" then
    let last_import_time := ch.last_ebay_order_import_time
    let ch' : Channel := { ch with last_ebay_order_import_time := now }
    let preTrace : List Event := [.cursorWrite now, .fetch last_import_time now]
    match fetchOrders last_import_time now with
    | none =>
      { channel := ch', result := .error (.no_orders last_import_time), trace := preTrace }
    | some of =>
      match processOrders createSale (normalizeOrders of) with
      | (.ok sales, tr) =>
        { channel := ch', result := .ok sales, trace := preTrace ++ tr }
      | (.error e, tr) =>
        { channel := ch', result := .error (.sale_error e), trace := preTrace ++ tr }
  else
    { channel := ch, result := .error .invalid_channel, trace := [] }

/-- The `GetItem` payload fields consumed by product.py.  Each price value
is the decimal string of the XML response (`['value']`); an empty string is
the Python-falsy case of `BuyItNowPrice['value'] or StartPrice['value']`.
`sku` is `none` when the `SKU` key is absent (`.get('SKU', None)`). -/
structure ItemPayload where
  title : String
  buy_it_now_price : String
  start_price : String
  item_id : String
  description : String
  sku : Option String
  deriving DecidableEq, Repr

/-- The `product.product` variant record created by product.py:
`ebay_item_id`, `description`, `code` (product.py lines 122-128).
`ebay_item_id` is `none` for products not imported from eBay, which the SQL
UNIQUE constraint ignores (NULLs never collide). -/
structure Product where
  ebay_item_id : Option String
  description : String
  code : Option String
  deriving DecidableEq, Repr, Inhabited

/-- The template-level values extracted by
`extract_product_values_from_ebay_data` (product.py lines 93-105).  Prices
keep their decimal-string source text: `Decimal` is an injective parse, so
equality of the chosen strings models equality of the parsed prices.  The
`default_uom` / account fields copied from the channel are configuration
wiring and are omitted. -/
structure ProductValues where
  name : String
  list_price : String
  cost_price : String
  salable : Bool
  deriving DecidableEq, Repr

/-- The `product.template` record built by `create_using_ebay_data`
(product.py lines 121-131): template values plus the created variants. -/
structure ProductTemplate where
  name : String
  list_price : String
  cost_price : String
  salable : Bool
  products : List Product
  deriving DecidableEq, Repr

/-- product.py lines 80-105, `extract_product_values_from_ebay_data`:
validate the channel, then take the title as name, `BuyItNowPrice or
StartPrice` (Python `or`: an empty value string falls through) as list
price, `StartPrice` as cost price, and mark the product salable. -/
def extract_product_values_from_ebay_data (ch : Channel) (item : ItemPayload) :
    Except ImportError ProductValues :=
  if ch.source = "ebay" then
    .ok
      { name := item.title
        list_price :=
          if item.buy_it_now_price = "" then item.start_price else item.buy_it_now_price
        cost_price := item.start_price
        salable := true }
  else
    .error .invalid_channel

/-- product.py lines 107-133, `create_using_ebay_data`: extract the template
values, then create the template with one variant carrying the payload's
`ItemID`, `Description` and optional `SKU`; the source returns
`product_template.products[0]` of this singleton. -/
def create_using_ebay_data (ch : Channel) (item : ItemPayload) :
    Except ImportError ProductTemplate :=
  (extract_product_values_from_ebay_data ch item).map fun v =>
    { name := v.name
      list_price := v.list_price
      cost_price := v.cost_price
      salable := v.salable
      products :=
        [{ ebay_item_id := some item.item_id
           description := item.description
           code := item.sku }] }

/-- product.py lines 50-77, `find_or_create_using_ebay_id`: search the
product store for the eBay id; if found return the first match (no API
call, nothing created); otherwise validate the channel, fetch the item
detail with `GetItem` and delegate to `create_using_ebay_data`.  The result
carries the returned product, the store after the call, and whether the
item-detail fetch happened.  `fetchItem` stands for the eBay `GetItem`
API call. -/
def find_or_create_using_ebay_id (store : List Product)
    (fetchItem : String → ItemPayload) (ch : Channel) (ebay_id : String) :
    Except ImportError (Product × List Product × Bool) :=
  match store.filter (fun p => p.ebay_item_id == some ebay_id) with
  | p :: _ => .ok (p, store, false)
  | [] =>
    if ch.source = "ebay" then
      (create_using_ebay_data ch (fetchItem ebay_id)).map fun tmpl =>
        (tmpl.products.headI, store ++ tmpl.products, true)
    else
      .error .invalid_channel

/-- product.py lines 42-48 declare the SQL constraint
`UNIQUE(ebay_item_id)` with message "eBay Item ID must be unique for each
product".  This is the storage layer's create honouring that declared
constraint: inserting a product whose non-NULL `ebay_item_id` collides with
an existing row fails with the constraint's message and changes nothing;
SQL UNIQUE lets any number of NULLs through. -/
def create_product (store : List Product) (p : Product) : Except String (List Product) :=
  if p.ebay_item_id.isSome && store.any (fun q => q.ebay_item_id == p.ebay_item_id) then
    .error "eBay Item ID must be unique for each product"
  else
    .ok (store ++ [p])

/-- The normalized address fields the matcher compares.  Modelled from the
spec: party.py (with `Party.get_address_from_ebay_data` and
`Address.is_match_found`) is not among the available sources; §4.1 gives the
candidate as (city, postal code, street, country code, subdivision name),
of which the equivalence predicate uses country code, subdivision name,
city and street. -/
structure EbayAddress where
  street : String
  city : String
  country_code : String
  subdivision_name : String
  deriving DecidableEq, Repr

/-- Modelled from the spec: `Address.is_match_found` of the absent party.py.
§4.1: equivalent exactly when country code, subdivision name, city name and
street text all match under case-insensitive string comparison; a pure
predicate with no side effects. -/
def is_match_found (a b : EbayAddress) : Bool :=
  a.country_code.toLower == b.country_code.toLower &&
    a.subdivision_name.toLower == b.subdivision_name.toLower &&
    a.city.toLower == b.city.toLower &&
    a.street.toLower == b.street.toLower

/-- A sale creation that always succeeds, used as a concrete instance of
the absent sale.py's `Sale.create_using_ebay_data`. -/
def okCreateSale : OrderData → Except String Sale :=
  fun o => .ok { ebay_order_id := o.order_id }

/-- A sale creation that fails on the order with external id "BAD" (a
malformed product payload) and succeeds elsewhere. -/
def badCreateSale : OrderData → Except String Sale :=
  fun o =>
    if o.order_id = "BAD" then .error "malformed product payload"
    else .ok { ebay_order_id := o.order_id }

/-- A concrete `GetItem` API: the fetched item carries the requested id, an
empty (falsy) buy-now price, and no SKU. -/
def itemApi : String → ItemPayload :=
  fun i =>
    { title := "title", buy_it_now_price := "", start_price := "1.00"
      item_id := i, description := "desc", sku := none }

/-- A concrete run at time 100 on a channel with cursor 50, where the
marketplace returns an empty order list. -/
def emptyBatchRun : ImportResult :=
  import_ebay_orders 100 (fun _ _ => some (.many [])) okCreateSale
    { source := "ebay", last_ebay_order_import_time := 50 }

/-- A concrete run at time 100 on a channel with cursor 50, where the
marketplace returns the two orders "BAD" and "GOOD" and sale creation
fails on "BAD". -/
def abortBatchRun : ImportResult :=
  import_ebay_orders 100 (fun _ _ => some (.many [⟨"BAD"⟩, ⟨"GOOD"⟩])) badCreateSale
    { source := "ebay", last_ebay_order_import_time := 50 }

/-- A concrete run at time 100 on a channel with cursor 50, where the
marketplace response has no `OrderArray`. -/
def noOrdersRun : ImportResult :=
  import_ebay_orders 100 (fun _ _ => none) okCreateSale
    { source := "ebay", last_ebay_order_import_time := 50 }

/-! ## Helper lemmas -/

theorem processOrders_trace_events (cs : OrderData → Except String Sale)
    (os : List OrderData) :
    ∀ e ∈ (processOrders cs os).2, ∃ o, e = Event.processOrder o := by
  induction os with
  | nil => simp [processOrders]
  | cons o os ih =>
    intro e he
    simp only [processOrders] at he
    cases hc : cs o with
    | error msg =>
      rw [hc] at he
      simp at he
      exact ⟨o, he⟩
    | ok s =>
      rw [hc] at he
      cases hp : processOrders cs os with
      | mk r tr =>
        rw [hp] at he ih
        cases r with
        | ok rest =>
          simp at he
          rcases he with he | he
          · exact ⟨o, he⟩
          · exact ih e he
        | error msg =>
          simp at he
          rcases he with he | he
          · exact ⟨o, he⟩
          · exact ih e he

theorem processOrders_error_of_append (cs : OrderData → Except String Sale)
    (pre : List OrderData) (o : OrderData) (post : List OrderData) (e : String)
    (hpre : ∀ p ∈ pre, ∃ s, cs p = .ok s) (ho : cs o = .error e) :
    processOrders cs (pre ++ o :: post) =
      (.error e, (pre ++ [o]).map Event.processOrder) := by
  induction pre with
  | nil => simp [processOrders, ho]
  | cons p ps ih =>
    obtain ⟨s, hs⟩ := hpre p (by simp)
    have hih := ih fun q hq => hpre q (by simp [hq])
    simp [processOrders, hs, hih]

theorem import_trace_shape (now : Nat) (f : Nat → Nat → Option OrderField)
    (cs : OrderData → Except String Sale) (ch : Channel) (hch : ch.source = "ebay") :
    ∃ rest, (import_ebay_orders now f cs ch).trace =
        .cursorWrite now :: .fetch ch.last_ebay_order_import_time now :: rest ∧
      ∀ e ∈ rest, ∃ o, e = Event.processOrder o := by
  cases hf : f ch.last_ebay_order_import_time now with
  | none =>
    refine ⟨[], ?_, by simp⟩
    simp [import_ebay_orders, hch, hf]
  | some of =>
    cases hp : processOrders cs (normalizeOrders of) with
    | mk r tr =>
      refine ⟨tr, ?_, ?_⟩
      · cases r <;> simp [import_ebay_orders, hch, hf, hp]
      · intro e he
        exact processOrders_trace_events cs (normalizeOrders of) e (by rw [hp]; exact he)

theorem import_channel_after (now : Nat) (f : Nat → Nat → Option OrderField)
    (cs : OrderData → Except String Sale) (ch : Channel) (hch : ch.source = "ebay") :
    (import_ebay_orders now f cs ch).channel =
      { ch with last_ebay_order_import_time := now } := by
  cases hf : f ch.last_ebay_order_import_time now with
  | none => simp [import_ebay_orders, hch, hf]
  | some of =>
    cases hp : processOrders cs (normalizeOrders of) with
    | mk r tr => cases r <;> simp [import_ebay_orders, hch, hf, hp]

/-! ## Claim theorems -/

/-- C1, counterexample: in the concrete run `emptyBatchRun` the cursor
write is the very first event of the trace, so it is not preceded by any
fetch event — refuting "the cursor write happens only after the fetch
attempt completes ... never before the fetch": channel.py persists the
cursor (line 172) before calling `GetOrders` (line 174). -/
theorem import_cursor_write_before_fetch_cex :
    ¬ (∀ j t, emptyBatchRun.trace.get? j = some (.cursorWrite t) →
        ∃ i a b, i < j ∧ emptyBatchRun.trace.get? i = some (.fetch a b)) := by
  intro h
  obtain ⟨i, a, b, hi, _⟩ := h 0 100 rfl
  exact absurd hi (Nat.not_lt_zero i)

/-- C1, amended: in every run on an eBay channel, the cursor write to the
captured window end is the first event of the trace — so it happens before
the fetch and before any order is processed — and it is the only cursor
write (never mid-batch): the rest of the trace is order processing only. -/
theorem import_cursor_write_first (now : Nat) (f : Nat → Nat → Option OrderField)
    (cs : OrderData → Except String Sale) (ch : Channel) (hch : ch.source = "ebay") :
    ∃ rest, (import_ebay_orders now f cs ch).trace =
        .cursorWrite now :: .fetch ch.last_ebay_order_import_time now :: rest ∧
      ∀ e ∈ rest, ∃ o, e = Event.processOrder o :=
  import_trace_shape now f cs ch hch

/-- C1, witness for `import_cursor_write_first` at a concrete run. -/
theorem import_cursor_write_first_witness :
    ∃ rest, (import_ebay_orders 100 (fun _ _ => some (.many [⟨"A"⟩])) okCreateSale
        { source := "ebay", last_ebay_order_import_time := 50 }).trace =
        .cursorWrite 100 :: .fetch 50 100 :: rest ∧
      ∀ e ∈ rest, ∃ o, e = Event.processOrder o :=
  import_cursor_write_first 100 _ okCreateSale
    { source := "ebay", last_ebay_order_import_time := 50 } rfl

/-- C2, counterexample: in the concrete two-order run `abortBatchRun`
(orders "BAD" then "GOOD", sale creation failing on "BAD"), the run raises
the per-order error instead of returning N−1 = 1 created sale, and the
trace shows "GOOD" was never processed — the loop of channel.py lines
193-195 has no per-order error handling, so one bad order aborts the
batch and no failure list is recorded. -/
theorem import_aborts_batch_on_failure_cex :
    abortBatchRun.result = .error (.sale_error "malformed product payload") ∧
    (∀ sales : List Sale, abortBatchRun.result ≠ .ok sales) ∧
    abortBatchRun.trace =
      [.cursorWrite 100, .fetch 50 100, .processOrder ⟨"BAD"⟩] := by
  refine ⟨rfl, ?_, rfl⟩
  intro sales h
  rw [show abortBatchRun.result =
    Except.error (ImportError.sale_error "malformed product payload") from rfl] at h
  exact Except.noConfusion h

/-- C2, amended: a per-order failure aborts the import run at the failing
order: the run raises that order's error, returns no list of created
sales, records no failure list, and never processes the orders after the
failing one. -/
theorem import_per_order_failure_aborts (now : Nat) (f : Nat → Nat → Option OrderField)
    (cs : OrderData → Except String Sale) (ch : Channel)
    (pre : List OrderData) (o : OrderData) (post : List OrderData) (e : String)
    (hch : ch.source = "ebay")
    (hf : f ch.last_ebay_order_import_time now = some (.many (pre ++ o :: post)))
    (hpre : ∀ p ∈ pre, ∃ s, cs p = .ok s) (ho : cs o = .error e) :
    (import_ebay_orders now f cs ch).result = .error (.sale_error e) ∧
    (import_ebay_orders now f cs ch).trace =
      .cursorWrite now :: .fetch ch.last_ebay_order_import_time now ::
        (pre ++ [o]).map Event.processOrder := by
  have hp := processOrders_error_of_append cs pre o post e hpre ho
  constructor <;> simp [import_ebay_orders, hch, hf, normalizeOrders, hp]

/-- C2, witness for `import_per_order_failure_aborts` at the concrete
two-order batch of `abortBatchRun`. -/
theorem import_per_order_failure_aborts_witness :
    (import_ebay_orders 100 (fun _ _ => some (.many [⟨"BAD"⟩, ⟨"GOOD"⟩])) badCreateSale
        { source := "ebay", last_ebay_order_import_time := 50 }).result =
      .error (.sale_error "malformed product payload") ∧
    (import_ebay_orders 100 (fun _ _ => some (.many [⟨"BAD"⟩, ⟨"GOOD"⟩])) badCreateSale
        { source := "ebay", last_ebay_order_import_time := 50 }).trace =
      .cursorWrite 100 :: .fetch 50 100 ::
        ([] ++ [⟨"BAD"⟩] : List OrderData).map Event.processOrder :=
  import_per_order_failure_aborts 100 _ badCreateSale
    { source := "ebay", last_ebay_order_import_time := 50 }
    [] ⟨"BAD"⟩ [⟨"GOOD"⟩] "malformed product payload" rfl rfl (by simp) rfl

/-- C3, counterexample: in the concrete run `noOrdersRun` the marketplace
reports zero orders and the run ends in a raised `no_orders` user error —
a hard failure, not an informational non-fatal result; channel.py lines
180-183 raise unconditionally, and no caller flag demanding orders exists
anywhere in the interface. -/
theorem import_no_orders_hard_failure_cex :
    noOrdersRun.result = .error (.no_orders 50) ∧
    ∀ sales : List Sale, noOrdersRun.result ≠ .ok sales := by
  refine ⟨rfl, ?_⟩
  intro sales h
  rw [show noOrdersRun.result =
    Except.error (ImportError.no_orders 50) from rfl] at h
  exact Except.noConfusion h

/-- C3, amended: when the marketplace reports zero orders in the window,
the run always raises the `no_orders` user error carrying the window-start
timestamp; there is no informational path and no caller option to demand
or waive the existence of orders. -/
theorem import_no_orders_always_errors (now : Nat) (f : Nat → Nat → Option OrderField)
    (cs : OrderData → Except String Sale) (ch : Channel) (hch : ch.source = "ebay")
    (hf : f ch.last_ebay_order_import_time now = none) :
    (import_ebay_orders now f cs ch).result =
      .error (.no_orders ch.last_ebay_order_import_time) := by
  simp [import_ebay_orders, hch, hf]

/-- C3, witness for `import_no_orders_always_errors` at a concrete run. -/
theorem import_no_orders_always_errors_witness :
    (import_ebay_orders 100 (fun _ _ => none) okCreateSale
        { source := "ebay", last_ebay_order_import_time := 50 }).result =
      .error (.no_orders 50) :=
  import_no_orders_always_errors 100 _ okCreateSale
    { source := "ebay", last_ebay_order_import_time := 50 } rfl rfl

/-- C4: after any run on an eBay channel — returning sales, raising
`no_orders`, or aborting on a per-order failure — the channel's cursor
equals the window end captured at the start of the run, and (when the
clock has not gone backwards past the old cursor) it is ≥ its value before
the run. -/
theorem import_cursor_monotone (now : Nat) (f : Nat → Nat → Option OrderField)
    (cs : OrderData → Except String Sale) (ch : Channel) (hch : ch.source = "ebay")
    (hle : ch.last_ebay_order_import_time ≤ now) :
    (import_ebay_orders now f cs ch).channel.last_ebay_order_import_time = now ∧
    ch.last_ebay_order_import_time ≤
      (import_ebay_orders now f cs ch).channel.last_ebay_order_import_time := by
  have hc : (import_ebay_orders now f cs ch).channel.last_ebay_order_import_time = now := by
    rw [import_channel_after now f cs ch hch]
  exact ⟨hc, by rw [hc]; exact hle⟩

/-- C4, witness for `import_cursor_monotone`: one instance per outcome
(sales returned, no orders, per-order failure). -/
theorem import_cursor_monotone_witness :
    ((import_ebay_orders 100 (fun _ _ => some (.many [⟨"A"⟩])) okCreateSale
        { source := "ebay", last_ebay_order_import_time := 50
          }).channel.last_ebay_order_import_time = 100 ∧
      50 ≤ (import_ebay_orders 100 (fun _ _ => some (.many [⟨"A"⟩])) okCreateSale
        { source := "ebay", last_ebay_order_import_time := 50
          }).channel.last_ebay_order_import_time) ∧
    noOrdersRun.channel.last_ebay_order_import_time = 100 ∧
    abortBatchRun.channel.last_ebay_order_import_time = 100 :=
  ⟨import_cursor_monotone 100 _ okCreateSale
      { source := "ebay", last_ebay_order_import_time := 50 } rfl (by decide),
    (import_cursor_monotone 100 _ okCreateSale
      { source := "ebay", last_ebay_order_import_time := 50 } rfl (by decide)).1,
    (import_cursor_monotone 100 _ badCreateSale
      { source := "ebay", last_ebay_order_import_time := 50 } rfl (by decide)).1⟩

/-- C5: creating a product whose `ebay_item_id` collides with one already
in the store fails with the declared uniqueness error of product.py lines
42-48, and never succeeds with any (overwritten or updated) store. -/
theorem create_product_unique_ebay_item_id (store : List Product) (p q : Product)
    (i : String) (hq : q ∈ store) (hqi : q.ebay_item_id = some i)
    (hpi : p.ebay_item_id = some i) :
    create_product store p = .error "eBay Item ID must be unique for each product" ∧
    ∀ store2, create_product store p ≠ .ok store2 := by
  have hcond : (p.ebay_item_id.isSome &&
      store.any fun q2 => q2.ebay_item_id == p.ebay_item_id) = true := by
    rw [hpi]
    simp only [Option.isSome_some, Bool.true_and, List.any_eq_true]
    exact ⟨q, hq, by simp [hqi]⟩
  refine ⟨by simp [create_product, hcond], ?_⟩
  intro store2 h
  simp [create_product, hcond] at h

/-- C5, witness for `create_product_unique_ebay_item_id`: a second create
with eBay item id "X" against a store already holding "X". -/
theorem create_product_unique_ebay_item_id_witness :
    create_product [{ ebay_item_id := some "X", description := "d", code := none }]
        { ebay_item_id := some "X", description := "d2", code := none } =
      .error "eBay Item ID must be unique for each product" ∧
    ∀ store2, create_product
        [{ ebay_item_id := some "X", description := "d", code := none }]
        { ebay_item_id := some "X", description := "d2", code := none } ≠ .ok store2 :=
  create_product_unique_ebay_item_id _ _
    { ebay_item_id := some "X", description := "d", code := none } "X"
    (by simp) rfl rfl

/-- C6: `find_or_create_using_ebay_id` is idempotent in the eBay item id.
When a product with the id exists, the call returns the first match,
leaves the store unchanged and performs no `GetItem` fetch; only when no
product exists does it fetch the item detail and append exactly one new
product built from the fetched payload. -/
theorem find_or_create_using_ebay_id_idempotent :
    (∀ (store : List Product) (f : String → ItemPayload) (ch : Channel) (i : String)
        (p : Product) (rest : List Product),
      store.filter (fun q => q.ebay_item_id == some i) = p :: rest →
      find_or_create_using_ebay_id store f ch i = .ok (p, store, false)) ∧
    (∀ (store : List Product) (f : String → ItemPayload) (ch : Channel) (i : String),
      store.filter (fun q => q.ebay_item_id == some i) = [] →
      ch.source = "ebay" →
      find_or_create_using_ebay_id store f ch i =
        .ok ({ ebay_item_id := some (f i).item_id, description := (f i).description
               code := (f i).sku },
          store ++ [{ ebay_item_id := some (f i).item_id
                      description := (f i).description, code := (f i).sku }], true)) := by
  constructor
  · intro store f ch i p rest h
    simp [find_or_create_using_ebay_id, h]
  · intro store f ch i h hch
    simp [find_or_create_using_ebay_id, h, hch, create_using_ebay_data,
      extract_product_values_from_ebay_data, Except.map]

/-- C6, witness for `find_or_create_using_ebay_id_idempotent`: a hit on an
existing product "X" (store untouched, no fetch) and a miss on "Y" (one
fetch, one created product). -/
theorem find_or_create_using_ebay_id_idempotent_witness :
    find_or_create_using_ebay_id
        [{ ebay_item_id := some "X", description := "d", code := none }] itemApi
        { source := "ebay", last_ebay_order_import_time := 0 } "X" =
      .ok ({ ebay_item_id := some "X", description := "d", code := none },
        [{ ebay_item_id := some "X", description := "d", code := none }], false) ∧
    find_or_create_using_ebay_id [] itemApi
        { source := "ebay", last_ebay_order_import_time := 0 } "Y" =
      .ok ({ ebay_item_id := some "Y", description := "desc", code := none },
        [{ ebay_item_id := some "Y", description := "desc", code := none }], true) :=
  ⟨find_or_create_using_ebay_id_idempotent.1 _ itemApi
      { source := "ebay", last_ebay_order_import_time := 0 } "X"
      { ebay_item_id := some "X", description := "d", code := none } [] (by decide),
    find_or_create_using_ebay_id_idempotent.2 [] itemApi
      { source := "ebay", last_ebay_order_import_time := 0 } "Y" rfl rfl⟩

/-- C7: a product created from eBay item data has the buy-now price as
list price when it is present (non-falsy) and the starting price
otherwise, the starting price as cost price, and carries the payload's
title, description and optional SKU (as local code). -/
theorem create_using_ebay_data_values (ch : Channel) (item : ItemPayload)
    (hch : ch.source = "ebay") :
    ∃ tmpl, create_using_ebay_data ch item = .ok tmpl ∧
      tmpl.list_price =
        (if item.buy_it_now_price = "" then item.start_price
         else item.buy_it_now_price) ∧
      tmpl.cost_price = item.start_price ∧
      tmpl.name = item.title ∧
      tmpl.products = [{ ebay_item_id := some item.item_id
                         description := item.description, code := item.sku }] := by
  refine ⟨{ name := item.title
            list_price :=
              if item.buy_it_now_price = "" then item.start_price
              else item.buy_it_now_price
            cost_price := item.start_price
            salable := true
            products := [{ ebay_item_id := some item.item_id
                           description := item.description, code := item.sku }] },
    ?_, rfl, rfl, rfl, rfl⟩
  simp [create_using_ebay_data, extract_product_values_from_ebay_data, hch, Except.map]

/-- C7, witness for `create_using_ebay_data_values` at a concrete payload
with a non-empty buy-now price and a SKU. -/
theorem create_using_ebay_data_values_witness :
    ∃ tmpl, create_using_ebay_data
        { source := "ebay", last_ebay_order_import_time := 0 }
        { title := "T", buy_it_now_price := "5.00", start_price := "2.00"
          item_id := "I1", description := "D", sku := some "S" } = .ok tmpl ∧
      tmpl.list_price = (if ("5.00" : String) = "" then "2.00" else "5.00") ∧
      tmpl.cost_price = "2.00" ∧
      tmpl.name = "T" ∧
      tmpl.products = [{ ebay_item_id := some "I1", description := "D"
                         code := some "S" }] :=
  create_using_ebay_data_values { source := "ebay", last_ebay_order_import_time := 0 }
    { title := "T", buy_it_now_price := "5.00", start_price := "2.00"
      item_id := "I1", description := "D", sku := some "S" } rfl

/-- C8: the address matcher judges two addresses equivalent exactly when
country code, subdivision name, city and street all match under
case-insensitive comparison — so payloads differing only in casing are
equivalent and any single (case-insensitive) mismatch refutes the match.
The predicate is a pure function. -/
theorem is_match_found_iff (a b : EbayAddress) :
    is_match_found a b = true ↔
      (a.country_code.toLower = b.country_code.toLower ∧
        a.subdivision_name.toLower = b.subdivision_name.toLower ∧
        a.city.toLower = b.city.toLower ∧
        a.street.toLower = b.street.toLower) := by
  simp [is_match_found, Bool.and_eq_true, beq_iff_eq, and_assoc]

/-- C9: an order-list response carrying one order as a single structured
object is treated identically, in every respect of the run, to a
one-element list of orders. -/
theorem import_single_order_normalization (now : Nat)
    (cs : OrderData → Except String Sale) (ch : Channel) (o : OrderData) :
    import_ebay_orders now (fun _ _ => some (.single o)) cs ch =
      import_ebay_orders now (fun _ _ => some (.many [o])) cs ch := rfl

/-- C10: a fresh channel's cursor defaults to thirty days (2592000
seconds) before the current UTC time, so a first run invoked at that same
time fetches the window `[t − 30 days, t)`, spanning at most the
preceding thirty days. -/
theorem default_import_time_thirty_day_window (t : Nat)
    (f : Nat → Nat → Option OrderField) (cs : OrderData → Except String Sale) :
    default_last_ebay_order_import_time t = t - 30 * 86400 ∧
    t - default_last_ebay_order_import_time t ≤ 30 * 86400 ∧
    ∃ rest, (import_ebay_orders t f cs
        { source := "ebay"
          last_ebay_order_import_time := default_last_ebay_order_import_time t }).trace =
      .cursorWrite t :: .fetch (t - 30 * 86400) t :: rest := by
  refine ⟨rfl, ?_, ?_⟩
  · show t - (t - 30 * 86400) ≤ 30 * 86400
    omega
  · obtain ⟨rest, htr, -⟩ :=
      import_trace_shape t f cs
        { source := "ebay"
          last_ebay_order_import_time := default_last_ebay_order_import_time t } rfl
    exact ⟨rest, htr⟩

end EbaySync
